import Mathlib

/-!
Verification of `compute_lambda.py` (tianbu/lambda): a tool computing the
genomic inflation factor (lambda, optionally lambda1000) from GWAS summary
statistics.

The numeric pipeline of `main` is embedded over `ℚ` (real arithmetic, exact):
  * statistic conversion (p-values / z or t statistics / chi-squared
    statistics) — the flag-driven block at lines 80–95 of the source;
  * the inflation estimator `max(np.median(stats) / EXPECTED_MEDIAN, 1)`
    (line 99), with `np.median` modelled faithfully (sort, middle element for
    odd length, mean of the two central elements for even length, NaN — here
    `none` — for an empty sequence);
  * the lambda1000 normalization (line 102).

The SciPy quantile functions are external library calls: `scipy.stats.norm.ppf`
is carried as an abstract function parameter `ppf`, and the startup constant
`EXPECTED_MEDIAN = scipy.stats.chi2.ppf(0.5, 1)` (≈ 0.4549364231…) as a
parameter constrained, where a theorem needs it, to its known numeric bounds.

The orchestration (`check_args` and the per-file loop of `main`) is embedded
as a trace semantics over an abstract file system: each run produces the list
of observable events (file stats, header reads, critical-error reports, data
reads, lambda reports) in source order, so that ordering claims about
validation versus processing can be stated and settled.
-/

namespace Lambda

/-- The statistic-semantics tags of the specification.  In the source they are
encoded by the three boolean flags `p_value`, `one_sided`, `chi2`. -/
inductive StatisticSemantics where
  | pValueOneSided
  | pValueTwoSided
  | zOrT
  | chiSquared
  deriving DecidableEq

/-- The `p_value` flag corresponding to a semantics tag. -/
def StatisticSemantics.pValueFlag : StatisticSemantics → Bool
  | .pValueOneSided => true
  | .pValueTwoSided => true
  | _ => false

/-- The `one_sided` flag corresponding to a semantics tag. -/
def StatisticSemantics.oneSidedFlag : StatisticSemantics → Bool
  | .pValueOneSided => true
  | _ => false

/-- The `chi2` flag corresponding to a semantics tag. -/
def StatisticSemantics.chi2Flag : StatisticSemantics → Bool
  | .chiSquared => true
  | _ => false

/-- The statistic-conversion block of `main` (source lines 80–95), literally:
if `p_value` is set, the statistics are first halved unless `one_sided`
(`stats = 0.5 * stats`), then mapped through `norm.ppf(1 - stats)`; afterwards,
unless `chi2` is set, they are squared (`stats = stats ** 2`).  `ppf` is the
abstract `scipy.stats.norm.ppf`. -/
def convertStats (ppf : ℚ → ℚ) (p_value one_sided chi2 : Bool) (stats : List ℚ) : List ℚ :=
  let stats :=
    if p_value then
      let stats := if !one_sided then stats.map (fun p => 0.5 * p) else stats
      stats.map (fun p => ppf (1 - p))
    else stats
  if !chi2 then stats.map (fun z => z ^ 2) else stats

/-- The converter of the specification, `convert(values, semantics)`: the
conversion block run with the flag assignment of the given semantics tag. -/
def convert (ppf : ℚ → ℚ) (sem : StatisticSemantics) (xs : List ℚ) : List ℚ :=
  convertStats ppf sem.pValueFlag sem.oneSidedFlag sem.chi2Flag xs

/-- `np.median`: sort; for odd length the middle element, for even length the
arithmetic mean of the two central elements; for an empty array NumPy emits a
RuntimeWarning and yields NaN, modelled as `none`. -/
def npMedian (xs : List ℚ) : Option ℚ :=
  if xs = [] then none
  else
    let s := List.insertionSort (· ≤ ·) xs
    let n := s.length
    if n % 2 = 1 then some (s.getD (n / 2) 0)
    else some ((s.getD (n / 2 - 1) 0 + s.getD (n / 2) 0) / 2)

/-- The inflation estimator of `main` (source line 99):
`inflation_factor = max(np.median(stats) / EXPECTED_MEDIAN, 1)`.
`EXPECTED_MEDIAN` is the startup constant `scipy.stats.chi2.ppf(0.5, 1)`,
carried as a parameter.  A NaN median (empty input) propagates: in Python
`max(nan, 1)` is `nan`, modelled by `Option.map`. -/
def estimate (EXPECTED_MEDIAN : ℚ) (stats : List ℚ) : Option ℚ :=
  (npMedian stats).map (fun m => max (m / EXPECTED_MEDIAN) 1)

/-- The lambda1000 normalization of `main` (source line 102):
`lambda1000 = 1 + (inflation_factor - 1) * (1/ncase + 1/ncontrol) * 500`. -/
def normalize (lam : ℚ) (ncase ncontrol : ℤ) : ℚ :=
  1 + (lam - 1) * (1 / (ncase : ℚ) + 1 / (ncontrol : ℚ)) * 500

/-- `npMedian` only looks at the multiset of elements: permuted inputs sort to
the same list. -/
theorem npMedian_perm (xs ys : List ℚ) (hp : List.Perm xs ys) :
    npMedian xs = npMedian ys := by
  rcases eq_or_ne xs [] with h | h
  · subst h
    simp [List.Perm.nil_eq hp, npMedian]
  · have hys : ys ≠ [] := by
      intro hy
      exact h (List.Perm.eq_nil (hy ▸ hp))
    have hsort : List.insertionSort (· ≤ ·) xs = List.insertionSort (· ≤ ·) ys := by
      exact List.eq_of_perm_of_sorted
        (((List.perm_insertionSort _ xs).trans hp).trans
          (List.perm_insertionSort _ ys).symm)
        (List.sorted_insertionSort _ xs) (List.sorted_insertionSort _ ys)
    simp only [npMedian, if_neg h, if_neg hys, hsort]

/-- A concrete inverse-quantile function used to instantiate the abstract
`ppf` in witnesses; it satisfies the point symmetry `ppf (1 - q) = - ppf q` of
the standard normal quantile function. -/
def ppfSym : ℚ → ℚ := fun q => q - 1 / 2

/-- The command-line options relevant to `check_args` and the `main` loop,
mirroring the `argparse` namespace of the source.  `normalized` carries the
two counts already converted to integers (`list(map(int, args.normalized))`). -/
structure Args where
  i_filenames : List String
  field : String
  snp_field : String
  whitespace : Bool
  delim : String
  p_value : Bool
  one_sided : Bool
  chi2 : Bool
  extract : Option String
  normalized : Option (ℤ × ℤ)
  deriving DecidableEq

/-- Abstract file system: `isfile` models `os.path.isfile`; `headerFields` the
fields obtained by splitting a file's first line (delimiter handling is a
boundary concern per the spec); `extractLines` the `splitlines()` of the
extract file; `rows` the table read by `pd.read_csv` restricted to the
statistic column and the SNP column (`none` entries are NA cells). -/
structure FileSystem where
  isfile : String → Bool
  headerFields : String → List String
  extractLines : String → List String
  rows : String → List (Option ℚ × Option String)

/-- Observable events of a run, in source order: file stats and header reads
performed by `check_args`, its `logger.critical` + `sys.exit(1)` reports,
the extract-file read, the per-file `pd.read_csv`, and the lambda reports. -/
inductive Event where
  | statFile (fn : String)
  | openHeader (fn : String)
  | statExtract (fn : String)
  | criticalNoFile (fn : String)
  | criticalNoField (fn fd : String)
  | criticalNoExtract (fn : String)
  | criticalOneSided
  | criticalChi2P
  | criticalCounts
  | readExtract (fn : String)
  | readData (fn : String)
  | report (fn : String) (lam : Option ℚ)
  | report1000 (fn : String) (lam : Option ℚ)
  deriving DecidableEq

/-- Events that stat, open or read an input file. -/
def Event.isTouch : Event → Bool
  | .statFile _ => true
  | .openHeader _ => true
  | .readData _ => true
  | .readExtract _ => true
  | _ => false

/-- The three configuration-error reports of `check_args` (source lines
142–156): `--one-sided` without `-p`, `--chi2` with `-p`, non-positive
case/control counts. -/
def Event.isConfigError : Event → Bool
  | .criticalOneSided => true
  | .criticalChi2P => true
  | .criticalCounts => true
  | _ => false

/-- Events of the per-file processing pipeline in `main` (reading the data and
reporting lambda / lambda1000). -/
def Event.isProcess : Event → Bool
  | .readData _ => true
  | .report _ _ => true
  | .report1000 _ _ => true
  | _ => false

/-- The invalid configurations rejected by `check_args`: `--one-sided` without
`-p`, `--chi2` with `-p`, or a non-positive case/control count. -/
def invalidConfig (args : Args) : Bool :=
  (args.one_sided && !args.p_value) || (args.chi2 && args.p_value) ||
    (match args.normalized with
     | some (ncase, ncontrol) => decide (ncase ≤ 0) || decide (ncontrol ≤ 0)
     | none => false)

/-- The per-file block of `check_args` (source lines 113–134): stat the file
(`os.path.isfile`), exit if missing; otherwise open it, read the header, exit
if the statistic field (or, with `--extract`, the SNP field) is absent. -/
def checkFile (fs : FileSystem) (args : Args) (fn : String) : List Event × Bool :=
  if !fs.isfile fn then ([Event.statFile fn, Event.criticalNoFile fn], false)
  else if !(fs.headerFields fn).contains args.field then
    ([Event.statFile fn, Event.openHeader fn, Event.criticalNoField fn args.field], false)
  else if args.extract.isSome && !(fs.headerFields fn).contains args.snp_field then
    ([Event.statFile fn, Event.openHeader fn, Event.criticalNoField fn args.snp_field], false)
  else ([Event.statFile fn, Event.openHeader fn], true)

/-- The `for fn in args.i_filenames` validation loop of `check_args`: the
first failing file exits the process, so later files are not examined. -/
def checkFiles (fs : FileSystem) (args : Args) : List String → List Event × Bool
  | [] => ([], true)
  | fn :: rest =>
    if (checkFile fs args fn).2 then
      ((checkFile fs args fn).1 ++ (checkFiles fs args rest).1, (checkFiles fs args rest).2)
    else ((checkFile fs args fn).1, false)

/-- The configuration checks at the end of `check_args` (source lines
142–156), in source order: `--one-sided` without `-p`, then `--chi2` with
`-p`, then non-positive case/control counts. -/
def configChecks (args : Args) : List Event × Bool :=
  if args.one_sided && !args.p_value then ([Event.criticalOneSided], false)
  else if args.chi2 && args.p_value then ([Event.criticalChi2P], false)
  else
    match args.normalized with
    | some (ncase, ncontrol) =>
      if ncase ≤ 0 ∨ ncontrol ≤ 0 then ([Event.criticalCounts], false)
      else ([], true)
    | none => ([], true)

/-- `check_args` (source lines 106–156): validate every input file first, then
the extract file's existence, and only then the configuration flags. -/
def check_args (fs : FileSystem) (args : Args) : List Event × Bool :=
  if (checkFiles fs args args.i_filenames).2 then
    match args.extract with
    | some ef =>
      if !fs.isfile ef then
        ((checkFiles fs args args.i_filenames).1 ++
          [Event.statExtract ef, Event.criticalNoExtract ef], false)
      else
        ((checkFiles fs args args.i_filenames).1 ++ [Event.statExtract ef] ++
          (configChecks args).1, (configChecks args).2)
    | none =>
      ((checkFiles fs args args.i_filenames).1 ++ (configChecks args).1,
        (configChecks args).2)
  else ((checkFiles fs args args.i_filenames).1, false)

/-- The per-file pipeline of the `main` loop (source lines 51–103): read the
table, drop NA rows over the used columns, optionally keep only the markers of
the extract list, convert the statistics, estimate lambda, report it, and
report lambda1000 when `--normalized` was given. -/
def processFile (ppf : ℚ → ℚ) (EM : ℚ) (fs : FileSystem) (args : Args)
    (snp_to_extract : List String) (fn : String) : List Event :=
  let data := fs.rows fn
  let data := data.filter (fun r => r.1.isSome && (!args.extract.isSome || r.2.isSome))
  let data :=
    if args.extract.isSome then
      data.filter (fun r =>
        match r.2 with
        | some s => snp_to_extract.contains s
        | none => false)
    else data
  let stats := data.filterMap (fun r => r.1)
  let stats := convertStats ppf args.p_value args.one_sided args.chi2 stats
  let inflation_factor := estimate EM stats
  [Event.readData fn, Event.report fn inflation_factor] ++
    (match args.normalized with
     | some (ncase, ncontrol) =>
       [Event.report1000 fn (inflation_factor.map (fun l => normalize l ncase ncontrol))]
     | none => [])

/-- `main` (source lines 32–103): run `check_args`; on failure the process has
exited; otherwise read the extract list if requested and process every input
file sequentially.  Returns the event trace and whether the run succeeded. -/
def runMain (ppf : ℚ → ℚ) (EM : ℚ) (fs : FileSystem) (args : Args) : List Event × Bool :=
  if (check_args fs args).2 then
    ((check_args fs args).1 ++
      (match args.extract with
       | some ef => [Event.readExtract ef]
       | none => ([] : List Event)) ++
      (args.i_filenames.map (processFile ppf EM fs args
        (match args.extract with
         | some ef => fs.extractLines ef
         | none => ([] : List String)))).flatten, true)
  else ((check_args fs args).1, false)

/-- Whether some input-file touch happens strictly before the first
configuration-error report in a trace. -/
def touchesBeforeConfigError (tr : List Event) : Bool :=
  (tr.takeWhile (fun e => !e.isConfigError)).any (fun e => e.isTouch)

/-- A file system in which every file exists, with a one-column header
`stat`. -/
def fsOne : FileSystem :=
  ⟨fun _ => true, fun _ => ["stat"], fun _ => [], fun _ => [(some 2, none)]⟩

/-- An invocation combining `--chi2` with `-p` on one existing input file. -/
def argsChi2P : Args :=
  ⟨["a"], "stat", "snp", false, "\t", true, false, true, none, none⟩

/-- A file system in which only file `b` exists. -/
def fsTwo : FileSystem :=
  ⟨fun fn => fn == "b", fun _ => ["stat"], fun _ => [], fun _ => [(some 2, none)]⟩

/-- A validly configured invocation on the missing file `a` followed by the
existing file `b`. -/
def argsTwo : Args :=
  ⟨["a", "b"], "stat", "snp", false, "\t", false, false, false, none, none⟩

/-- C1: for every non-empty sequence the estimator returns
`max(median(chisq) / EXPECTED_MEDIAN, 1)`, hence never a value below 1
(all-zero input included), and on the sample
`[0.1, 0.2, 0.3, 0.4549364, 10.0]` it returns exactly 1.  The hypothesis pins
`EXPECTED_MEDIAN` to the known numeric bounds of the chi-squared(1) median
(0.45 < 0.4549364… < 0.46). -/
theorem estimate_formula_floor_and_sample (EM : ℚ)
    (hEM : 9 / 20 < EM ∧ EM < 23 / 50) :
    (∀ xs : List ℚ, xs ≠ [] → ∃ m, npMedian xs = some m ∧
        estimate EM xs = some (max (m / EM) 1) ∧ 1 ≤ max (m / EM) 1) ∧
    estimate EM [1/10, 2/10, 3/10, 4549364/10000000, 10] = some 1 := by
  constructor
  · intro xs hxs
    obtain ⟨m, hm⟩ : ∃ m, npMedian xs = some m := by
      simp only [npMedian, if_neg hxs]
      split
      · exact ⟨_, rfl⟩
      · exact ⟨_, rfl⟩
    exact ⟨m, hm, by simp [estimate, hm], le_max_right _ _⟩
  · have hmed : npMedian [1/10, 2/10, 3/10, 4549364/10000000, 10] = some (3/10) := by
      norm_num [npMedian, List.insertionSort, List.orderedInsert]
      exact fun h => absurd h (by simp)
    have hEMpos : 0 < EM := lt_trans (by norm_num) hEM.1
    have hle : (3/10 : ℚ) / EM ≤ 1 := by
      rw [div_le_one hEMpos]
      linarith [hEM.1]
    simp only [estimate, hmed, Option.map_some']
    rw [max_eq_right hle]

/-- Witness for C1 at `EXPECTED_MEDIAN = 0.4549364`. -/
theorem estimate_formula_floor_and_sample_witness :
    ((9:ℚ)/20 < 4549364/10000000 ∧ (4549364:ℚ)/10000000 < 23/50) ∧
    estimate (4549364/10000000) [1/10, 2/10, 3/10, 4549364/10000000, 10] = some 1 := by
  have h : (9:ℚ)/20 < 4549364/10000000 ∧ (4549364:ℚ)/10000000 < 23/50 := by norm_num
  exact ⟨h, (estimate_formula_floor_and_sample (4549364/10000000) h).2⟩

/-- C2 evidence: on the empty sequence the estimator returns the NaN marker
(`np.median` of an empty array yields NaN with a RuntimeWarning, and Python's
`max(nan, 1)` is `nan`), instead of raising the precondition error the
specification requires. -/
theorem estimate_empty_returns_nan (EM : ℚ) : estimate EM [] = none := by
  simp [estimate, npMedian]

/-- C3: for p in (0,1), two-sided conversion of p equals one-sided conversion
of p/2 — both are `(ppf (1 - p/2))²`. -/
theorem convert_twoSided_eq_oneSided_half (ppf : ℚ → ℚ) (p : ℚ)
    (h0 : 0 < p) (h1 : p < 1) :
    convert ppf .pValueTwoSided [p] = convert ppf .pValueOneSided [p / 2] := by
  have h : (0.5 : ℚ) * p = p / 2 := by ring
  simp [convert, convertStats, StatisticSemantics.pValueFlag,
    StatisticSemantics.oneSidedFlag, StatisticSemantics.chi2Flag, h]

/-- Witness for C3 at `ppf = id`, `p = 1/2`. -/
theorem convert_twoSided_eq_oneSided_half_witness :
    (0 : ℚ) < 1/2 ∧ (1/2 : ℚ) < 1 ∧
    convert id .pValueTwoSided [1/2] = convert id .pValueOneSided [(1/2) / 2] :=
  ⟨by norm_num, by norm_num,
    convert_twoSided_eq_oneSided_half id (1/2) (by norm_num) (by norm_num)⟩

/-- C4: chi-squared statistics pass through the converter unchanged. -/
theorem convert_chiSquared_id (ppf : ℚ → ℚ) (xs : List ℚ) :
    convert ppf .chiSquared xs = xs := by
  simp [convert, convertStats, StatisticSemantics.pValueFlag,
    StatisticSemantics.oneSidedFlag, StatisticSemantics.chi2Flag]

/-- C5: the normalization computes
`λ1000 = 1 + (λ − 1) · (1/caseCount + 1/controlCount) · 500`; at λ = 1 it
returns 1 for any counts, and at λ = 1.2 with 500 cases and 500 controls it
returns 1.4. -/
theorem normalize_formula_and_values (lam : ℚ) (ncase ncontrol : ℤ)
    (hc : 0 < ncase) (hctl : 0 < ncontrol) :
    normalize lam ncase ncontrol
        = 1 + (lam - 1) * (1 / (ncase : ℚ) + 1 / (ncontrol : ℚ)) * 500 ∧
    normalize 1 ncase ncontrol = 1 ∧
    normalize (12/10) 500 500 = 14/10 := by
  refine ⟨rfl, by simp [normalize], by norm_num [normalize]⟩

/-- Witness for C5 at λ = 1.2, 500 cases, 500 controls. -/
theorem normalize_formula_and_values_witness :
    (0:ℤ) < 500 ∧ normalize (12/10) 500 500 = 14/10 :=
  ⟨by decide, (normalize_formula_and_values (12/10) 500 500 (by decide) (by decide)).2.2⟩

/-- C8: the estimator is invariant under permutation of its non-empty input
sequence (the median only depends on the sorted order). -/
theorem estimate_perm_invariant (EM : ℚ) (xs ys : List ℚ)
    (hne : xs ≠ []) (hp : List.Perm xs ys) :
    estimate EM xs = estimate EM ys := by
  rw [estimate, estimate, npMedian_perm xs ys hp]

/-- Witness for C8 on the swap `[1, 2] ~ [2, 1]`. -/
theorem estimate_perm_invariant_witness :
    ([(1:ℚ), 2] ≠ []) ∧ List.Perm [(1:ℚ), 2] [2, 1] ∧
    estimate (4549364/10000000) [1, 2] = estimate (4549364/10000000) [2, 1] := by
  have hp : List.Perm [(1:ℚ), 2] [2, 1] := (List.Perm.swap 1 2 []).symm
  exact ⟨by simp, hp,
    estimate_perm_invariant (4549364/10000000) [1, 2] [2, 1] (by simp) hp⟩

/-- C9: for λ ≥ 1 and positive case/control counts (the counts admitted by the
configuration check), the normalized λ1000 is also ≥ 1. -/
theorem normalize_preserves_floor (lam : ℚ) (ncase ncontrol : ℤ)
    (hl : 1 ≤ lam) (hc : 0 < ncase) (hctl : 0 < ncontrol) :
    1 ≤ normalize lam ncase ncontrol := by
  have h1 : (0:ℚ) < (ncase : ℚ) := by exact_mod_cast hc
  have h2 : (0:ℚ) < (ncontrol : ℚ) := by exact_mod_cast hctl
  have hs : (0:ℚ) ≤ 1 / (ncase:ℚ) + 1 / (ncontrol:ℚ) := by positivity
  have hprod : (0:ℚ) ≤ (lam - 1) * (1 / (ncase:ℚ) + 1 / (ncontrol:ℚ)) * 500 :=
    mul_nonneg (mul_nonneg (by linarith) hs) (by norm_num)
  simp only [normalize]
  linarith

/-- Witness for C9 at λ = 1.2, 500 cases, 500 controls. -/
theorem normalize_preserves_floor_witness :
    (1:ℚ) ≤ 12/10 ∧ (0:ℤ) < 500 ∧ (1:ℚ) ≤ normalize (12/10) 500 500 :=
  ⟨by norm_num, by decide,
    normalize_preserves_floor (12/10) 500 500 (by norm_num) (by decide) (by decide)⟩

/-- C10: under the point symmetry `ppf (1 - q) = - ppf q` of the standard
normal quantile, one-sided conversion maps p and 1 − p to the same chi-squared
value: `(ppf (1 - p))² = (ppf p)²`. -/
theorem oneSided_conflates_p_and_complement (ppf : ℚ → ℚ)
    (hsym : ∀ q : ℚ, ppf (1 - q) = - ppf q) (p : ℚ) (h0 : 0 < p) (h1 : p < 1) :
    convert ppf .pValueOneSided [p] = convert ppf .pValueOneSided [1 - p] := by
  have hpp : (1:ℚ) - (1 - p) = p := by ring
  have hsq : ppf (1 - p) ^ 2 = ppf (1 - (1 - p)) ^ 2 := by
    rw [hpp, hsym p]
    ring
  simp [convert, convertStats, StatisticSemantics.pValueFlag,
    StatisticSemantics.oneSidedFlag, StatisticSemantics.chi2Flag, hsq]

/-- Witness for C10 at `ppf q = q − 1/2`, `p = 1/4`. -/
theorem oneSided_conflates_p_and_complement_witness :
    (∀ q : ℚ, ppfSym (1 - q) = - ppfSym q) ∧ ((0:ℚ) < 1/4) ∧ ((1:ℚ)/4 < 1) ∧
    convert ppfSym .pValueOneSided [1/4] = convert ppfSym .pValueOneSided [1 - 1/4] :=
  ⟨fun q => by simp only [ppfSym]; ring, by norm_num, by norm_num,
    oneSided_conflates_p_and_complement ppfSym (fun q => by simp only [ppfSym]; ring)
      (1/4) (by norm_num) (by norm_num)⟩

/-- Every event emitted by the per-file validation block is a stat, header
read or critical report — never a pipeline-processing event. -/
theorem checkFile_no_process (fs : FileSystem) (args : Args) (fn : String) :
    ((checkFile fs args fn).1.all (fun e => !e.isProcess)) = true := by
  unfold checkFile
  repeat' split
  all_goals rfl

/-- The validation loop over the input files emits no processing event. -/
theorem checkFiles_no_process (fs : FileSystem) (args : Args) (fns : List String) :
    ((checkFiles fs args fns).1.all (fun e => !e.isProcess)) = true := by
  induction fns with
  | nil => rfl
  | cons fn rest ih =>
    unfold checkFiles
    split
    · simp only [List.all_append, ih, checkFile_no_process, Bool.and_self]
    · exact checkFile_no_process fs args fn

/-- The configuration checks emit no processing event. -/
theorem configChecks_no_process (args : Args) :
    ((configChecks args).1.all (fun e => !e.isProcess)) = true := by
  unfold configChecks
  repeat' split
  all_goals rfl

/-- `check_args` emits no processing event: it only stats files, reads
headers, and reports critical errors. -/
theorem check_args_no_process (fs : FileSystem) (args : Args) :
    ((check_args fs args).1.all (fun e => !e.isProcess)) = true := by
  unfold check_args
  repeat' split
  all_goals simp only [List.all_append, checkFiles_no_process, configChecks_no_process,
    Bool.true_and, Bool.and_true]
  all_goals rfl

/-- An invalid configuration makes the final checks of `check_args` fail. -/
theorem configChecks_fail (args : Args) (h : invalidConfig args = true) :
    (configChecks args).2 = false := by
  rcases hn : args.normalized with _ | ⟨ncase, ncontrol⟩ <;>
    cases hos : args.one_sided <;> cases hp : args.p_value <;> cases hc2 : args.chi2 <;>
      simp_all [invalidConfig, configChecks]

/-- An invalid configuration makes `check_args` fail (whatever the files). -/
theorem check_args_fail_config (fs : FileSystem) (args : Args)
    (h : invalidConfig args = true) :
    (check_args fs args).2 = false := by
  unfold check_args
  repeat' split
  all_goals first
    | rfl
    | exact configChecks_fail args h

/-- If some input file fails its validation, the validation loop fails. -/
theorem checkFiles_fail_of_mem (fs : FileSystem) (args : Args) (fns : List String)
    (fn : String) (hmem : fn ∈ fns) (hfail : (checkFile fs args fn).2 = false) :
    (checkFiles fs args fns).2 = false := by
  induction fns with
  | nil => simp at hmem
  | cons a rest ih =>
    unfold checkFiles
    rcases List.mem_cons.mp hmem with rfl | hmem2
    · split
      · simp_all
      · rfl
    · split
      · exact ih hmem2
      · rfl

/-- If some input file fails its validation, `check_args` fails. -/
theorem check_args_fail_file (fs : FileSystem) (args : Args) (fn : String)
    (hmem : fn ∈ args.i_filenames) (hfail : (checkFile fs args fn).2 = false) :
    (check_args fs args).2 = false := by
  unfold check_args
  split
  · next hok =>
    exact absurd hok (by simp [checkFiles_fail_of_mem fs args args.i_filenames fn hmem hfail])
  · rfl

/-- C6 counterexample: with `--chi2` and `-p` combined on one existing input
file, `check_args` stats the file and reads its header before reporting the
configuration error — the input file is touched first. -/
theorem config_error_after_file_touch_cex :
    invalidConfig argsChi2P = true ∧
    touchesBeforeConfigError (runMain id (4549364/10000000) fsOne argsChi2P).1 = true := by
  constructor
  · decide
  · decide

/-- C6 amended: an invalid configuration always aborts the run before any file
is processed through the pipeline — no data read, no lambda reported — even
though per-file validation may touch the files first. -/
theorem invalid_config_aborts_before_processing (ppf : ℚ → ℚ) (EM : ℚ)
    (fs : FileSystem) (args : Args) (h : invalidConfig args = true) :
    (runMain ppf EM fs args).2 = false ∧
    ∀ e ∈ (runMain ppf EM fs args).1, e.isProcess = false := by
  have hca := check_args_fail_config fs args h
  have hrun : runMain ppf EM fs args = ((check_args fs args).1, false) := by
    unfold runMain
    simp [hca]
  rw [hrun]
  refine ⟨rfl, fun e he => ?_⟩
  have := List.all_eq_true.mp (check_args_no_process fs args) e he
  simpa using this

/-- Witness for the amended C6 on the concrete `--chi2 -p` invocation. -/
theorem invalid_config_aborts_before_processing_witness :
    invalidConfig argsChi2P = true ∧
    ((runMain id (4549364/10000000) fsOne argsChi2P).2 = false ∧
      ∀ e ∈ (runMain id (4549364/10000000) fsOne argsChi2P).1, e.isProcess = false) :=
  ⟨by decide,
    invalid_config_aborts_before_processing id (4549364/10000000) fsOne argsChi2P (by decide)⟩

/-- C7 counterexample: a validly configured run on a missing file `a` and an
existing, well-formed file `b` never processes `b`: `sys.exit(1)` on the first
validation failure aborts the whole invocation. -/
theorem file_failure_not_independent_cex :
    invalidConfig argsTwo = false ∧
    (checkFile fsTwo argsTwo "a").2 = false ∧
    Event.readData "b" ∉ (runMain id (4549364/10000000) fsTwo argsTwo).1 := by
  refine ⟨by decide, by decide, by decide⟩

/-- C7 amended: a per-file validation failure (missing file or missing
required column) is fatal for the whole invocation: the run aborts and no
input file — the failing one or any other — is processed. -/
theorem file_failure_aborts_invocation (ppf : ℚ → ℚ) (EM : ℚ)
    (fs : FileSystem) (args : Args) (fn : String)
    (hmem : fn ∈ args.i_filenames) (hfail : (checkFile fs args fn).2 = false) :
    (runMain ppf EM fs args).2 = false ∧
    ∀ e ∈ (runMain ppf EM fs args).1, e.isProcess = false := by
  have hca := check_args_fail_file fs args fn hmem hfail
  have hrun : runMain ppf EM fs args = ((check_args fs args).1, false) := by
    unfold runMain
    simp [hca]
  rw [hrun]
  refine ⟨rfl, fun e he => ?_⟩
  have := List.all_eq_true.mp (check_args_no_process fs args) e he
  simpa using this

/-- Witness for the amended C7 on the concrete missing-file invocation. -/
theorem file_failure_aborts_invocation_witness :
    "a" ∈ argsTwo.i_filenames ∧ (checkFile fsTwo argsTwo "a").2 = false ∧
    ((runMain id (4549364/10000000) fsTwo argsTwo).2 = false ∧
      ∀ e ∈ (runMain id (4549364/10000000) fsTwo argsTwo).1, e.isProcess = false) :=
  ⟨by decide, by decide,
    file_failure_aborts_invocation id (4549364/10000000) fsTwo argsTwo "a"
      (by decide) (by decide)⟩

end Lambda
